import Mathlib

/-
Verification of the TemplateInstaller core (python_port) against its design
specification.  The Python modules `auth_tools.py`, `common.py` and
`main_installer.py` are shallowly embedded below: pure helpers become Lean
functions, the filesystem and the archive/XML readers become explicit data,
and Python exception flow is made explicit with an `Except` monad whose
`error` constructor marks an exception propagating out of the translated
code.  Logging calls and the UI bookkeeping (open-folder flags, MRU
recording, app launching) are elided: they touch no counter and no file.
-/

set_option maxHeartbeats 1000000

/-- Python exceptions that the embedded code can raise or catch.
`osError` models `OSError`, `keyError` models `KeyError` (raised by
`zipped.open` on a missing archive entry), `parseError` models
`xml.etree.ElementTree.ParseError` and `badZip` models
`zipfile.BadZipFile`.  Only `osError` is an `OSError`; all four are
`Exception`s. -/
inductive PyExc
  | osError (msg : String)
  | keyError
  | parseError (msg : String)
  | badZip (msg : String)
deriving Repr, DecidableEq

/-- The message Python would show for the exception (`str(exc)`). -/
def excMsg : PyExc → String
  | .osError m => m
  | .keyError => "KeyError"
  | .parseError m => m
  | .badZip m => m

/-- `except OSError` catches exactly this subset. -/
def isOSError : PyExc → Bool
  | .osError _ => true
  | _ => false

/-- `except KeyError` catches exactly this subset. -/
def isKeyError : PyExc → Bool
  | .keyError => true
  | _ => false

/-- `except Exception` catches everything modelled here. -/
def isAnyExc : PyExc → Bool := fun _ => true

/-- A Python `try/except` block: run `body`; an exception is handed to
`handler` when the `except` clause (`catchP`) matches it, and keeps
propagating otherwise. -/
def pyTry (body : Except PyExc α) (catchP : PyExc → Bool)
    (handler : PyExc → Except PyExc α) : Except PyExc α :=
  match body with
  | .ok a => .ok a
  | .error e => if catchP e then handler e else .error e

/-- The `docProps/core.xml` entry of a template container, classified by how
`ET.fromstring` treats its bytes.  In `parsed dc plain`, `dc` is the
Dublin-Core `creator` element and `plain` the unqualified `creator`
element; `some t` means the element is present with truthy (non-empty)
text `t`, `none` that it is absent or has falsy text. -/
inductive CoreXml
  | malformed (msg : String)
  | parsed (dc : Option String) (plain : Option String)
deriving Repr, DecidableEq

/-- The bytes of a template file, classified by how `zipfile` treats them:
`badZip` makes `zipfile.ZipFile` raise; `zip core` is a readable archive
whose `docProps/core.xml` entry is `core` (`none` = entry absent). -/
inductive Content
  | badZip (msg : String)
  | zip (core : Option CoreXml)
deriving Repr, DecidableEq

/-- A regular file inside a scanned directory (directory scans are one
level deep and `iter_template_files` yields files only). -/
structure DirEntry where
  name : String
  content : Content
deriving Repr, DecidableEq

/-- What the filesystem holds at a target path. -/
inductive FileKind
  | absent
  | dir (entries : List DirEntry)
  | file (content : Content)
deriving Repr, DecidableEq

/-- `zipfile.ZipFile(path)`: raises on a bad container. -/
def zipOpen : Content → Except PyExc (Option CoreXml)
  | .badZip m => .error (.badZip m)
  | .zip core => .ok core

/-- `zipped.open("docProps/core.xml")`: raises `KeyError` when absent. -/
def entryOpen : Option CoreXml → Except PyExc CoreXml
  | none => .error .keyError
  | some c => .ok c

/-- `ET.fromstring(bytes)`: raises `ParseError` on malformed XML. -/
def xmlParse : CoreXml → Except PyExc (Option String × Option String)
  | .malformed m => .error (.parseError m)
  | .parsed dc plain => .ok (dc, plain)

/-- The candidate loop of `_extract_author`: the Dublin-Core `creator` is
consulted first, then the unqualified one; the loop stops at the first
element with truthy text. -/
def firstTruthy (dc plain : Option String) : Option String :=
  match dc with
  | some t => some t
  | none => plain

/-- Python's `str.strip()` (surrounding ASCII whitespace removed). -/
def pyStrip (s : String) : String :=
  let ws := fun c => c = ' ' || c = '\t' || c = '\n' || c = '\r'
  String.mk (((s.toList.dropWhile ws).reverse.dropWhile ws).reverse)

/-- Python's `str.lower()` (ASCII case folding suffices here). -/
def pyLower (s : String) : String :=
  String.mk (s.toList.map Char.toLower)

/-- Index of the last `.` in a list of characters, if any. -/
def lastDotIdx (cs : List Char) : Option Nat :=
  cs.enum.foldl (fun acc p => if p.2 = '.' then some p.1 else acc) none

/-- `pathlib.Path(name).suffix`: the extension from the final dot, empty
when the name has no dot, ends with its only dot, or starts with its only
dot. -/
def pathSuffix (name : String) : String :=
  let cs := name.toList
  match lastDotIdx cs with
  | none => ""
  | some i => if 0 < i && i < cs.length - 1 then String.mk (cs.drop i) else ""

/-- constants.DEFAULT_ALLOWED_TEMPLATE_AUTHORS. -/
def DEFAULT_ALLOWED_TEMPLATE_AUTHORS : List String :=
  ["www.grada.cc", "www.gradaz.com"]

/-- `sorted(SUPPORTED_TEMPLATE_EXTENSIONS)` as iterated by
`utils.iter_template_files`. -/
def SUPPORTED_EXTENSIONS_SORTED : List String :=
  [".dotm", ".dotx", ".potm", ".potx", ".thmx", ".xltm", ".xltx"]

/-- constants.BASE_TEMPLATE_NAMES. -/
def BASE_TEMPLATE_NAMES : List String :=
  ["Normal.dotx", "Normal.dotm", "NormalEmail.dotx", "NormalEmail.dotm",
   "Blank.potx", "Blank.potm", "Book.xltx", "Book.xltm",
   "Sheet.xltx", "Sheet.xltm"]

/-- `base_dir.glob("*" + ext)` hitting a file name: on Windows the match is
case-insensitive and selects names whose suffix equals `ext`. -/
def globExt (name ext : String) : Bool :=
  pyLower (pathSuffix name) = ext

/-- `utils.iter_template_files`: for each supported extension (in sorted
order) the directory's matching files, in directory order. -/
def iter_template_files (entries : List DirEntry) : List DirEntry :=
  SUPPORTED_EXTENSIONS_SORTED.flatMap fun ext =>
    entries.filter fun e => globExt e.name ext

/-- Python's `allowed_authors or DEFAULT_ALLOWED_TEMPLATE_AUTHORS`:
`None` and the empty list are falsy and fall back to the default; any
non-empty list (even of blank strings) is truthy and is kept. -/
def pyOrDefault (x : Option (List String)) (d : List String) : List String :=
  match x with
  | none => d
  | some [] => d
  | some l => l

/-- `_normalize_allowed_authors` (identical in auth_tools.py and
common.py): strip each entry, drop the blank ones, keep order. -/
def _normalize_allowed_authors (authors : List String) : List String :=
  authors.filterMap fun a =>
    let cleaned := pyStrip a
    if cleaned = "" then none else some cleaned

/-- The `AuthorCheckResult` dataclass. -/
structure AuthorCheckResult where
  allowed : Bool
  message : String
  authors : List String
  error : Bool
deriving Repr, DecidableEq

/-- The pair returned by `_extract_author`: optional author, optional
error/warning message. -/
abbrev ExtractResult := Option String × Option String

namespace auth_tools

/-- The tail of `auth_tools._extract_author` after a successful parse: the
candidate loop followed by the `if not creator` guard (a creator that
strips to the empty string counts as missing). -/
def creatorResult (dc plain : Option String) : ExtractResult :=
  match firstTruthy dc plain with
  | none => (none, some "[WARN] Archivo sin autor definido.")
  | some t =>
      let creator := pyStrip t
      if creator = "" then (none, some "[WARN] Archivo sin autor definido.")
      else (some creator, none)

/-- auth_tools._extract_author.  The nested `try` blocks of the Python are
mirrored: the inner `except KeyError` only catches the missing-entry
error (a `ParseError` from `ET.fromstring` falls through to the outer
handler), and the outer `except Exception` converts anything else into an
error message. -/
def _extract_author (exists_ : Bool) (pathStr : String) (c : Content) :
    Except PyExc ExtractResult :=
  if exists_ = false then
    .ok (none, some ("[ERROR] No se encontró la ruta: \"" ++ pathStr ++ "\""))
  else
    pyTry
      (do
        let core? ← zipOpen c
        let parsed? ← pyTry
          (do
            let core ← entryOpen core?
            let r ← xmlParse core
            pure (some r))
          isKeyError
          (fun _ => .ok none)
        match parsed? with
        | none =>
            pure ((none : Option String),
              some "[WARN] No se pudo obtener el autor (core.xml ausente).")
        | some (dc, plain) => pure (creatorResult dc plain))
      isAnyExc
      (fun e => .ok (none, some ("[ERROR] " ++ excMsg e)))

/-- Exception-free value of `_extract_author` on an existing file (proved
equal to it in `extract_author_ok` below). -/
def extractPure : Content → ExtractResult
  | .badZip m => (none, some ("[ERROR] " ++ m))
  | .zip none =>
      (none, some "[WARN] No se pudo obtener el autor (core.xml ausente).")
  | .zip (some (.malformed m)) => (none, some ("[ERROR] " ++ m))
  | .zip (some (.parsed dc plain)) => creatorResult dc plain

theorem extract_author_ok (s : String) (c : Content) :
    _extract_author true s c = Except.ok (extractPure c) := by
  cases c with
  | badZip m => rfl
  | zip core =>
      cases core with
      | none => rfl
      | some x => cases x with
        | malformed m => rfl
        | parsed dc plain => rfl

/-- The directory-scan loop of `auth_tools.check_template_author`:
`_extract_author` per file, appending each found author; error messages
are logged and do not stop the scan. -/
def scanAuthors : List DirEntry → Except PyExc (List String)
  | [] => .ok []
  | f :: rest => do
      let (author, _err) ← _extract_author true f.name f.content
      let tail ← scanAuthors rest
      pure (match author with
        | some a => a :: tail
        | none => tail)

theorem scanAuthors_ok (files : List DirEntry) :
    scanAuthors files =
      Except.ok (files.filterMap fun f => (extractPure f.content).fst) := by
  induction files with
  | nil => rfl
  | cons f rest ih =>
      simp only [scanAuthors, extract_author_ok, ih, List.filterMap_cons,
        bind, Except.bind]
      cases h : (extractPure f.content).fst with
      | none => simp [h, pure, Except.pure]
      | some a => simp [h, pure, Except.pure]

/-- auth_tools.check_template_author.  `target` is what the filesystem holds
at the (normalized) path, `targetStr` its rendering in messages.
`allowed_authors=None` falls back to the default list via Python `or`
truthiness. -/
def check_template_author (target : FileKind) (targetStr : String)
    (allowed_authors : Option (List String)) (validation_enabled : Bool) :
    Except PyExc AuthorCheckResult :=
  let allowed := _normalize_allowed_authors
    (pyOrDefault allowed_authors DEFAULT_ALLOWED_TEMPLATE_AUTHORS)
  match target with
  | .absent =>
      .ok ⟨false, "[ERROR] No se encontró la ruta: \"" ++ targetStr ++ "\"",
        [], true⟩
  | .dir entries => do
      let authors_found ← scanAuthors (iter_template_files entries)
      let message :=
        if authors_found.isEmpty then
          "[WARN] No se encontraron plantillas en \"" ++ targetStr ++ "\"."
        else
          "[INFO] Autores listados para la carpeta \"" ++ targetStr ++ "\"."
      pure ⟨true, message, authors_found, false⟩
  | .file c =>
      if validation_enabled = false then
        .ok ⟨true,
          "[INFO] Validación de autores deshabilitada; se permite el archivo.",
          [], false⟩
      else do
        let (author, err) ← _extract_author true targetStr c
        match err with
        | some e => pure ⟨false, e, [], true⟩
        | none =>
            match author with
            | none =>
                pure ⟨false,
                  "[WARN] El archivo \"" ++ targetStr ++
                    "\" no tiene autor asignado.", [], false⟩
            | some a =>
                let is_allowed := allowed.any fun x =>
                  pyLower (pyStrip a) = pyLower x
                let message :=
                  if is_allowed then "[OK] Autor aprobado."
                  else "[BLOCKED] Autor no permitido para \"" ++ targetStr ++ "\"."
                pure ⟨is_allowed, message, [a], false⟩

/-- Exception-free value of `check_template_author` (proved equal to it in
`check_ok` below). -/
def checkPure (target : FileKind) (targetStr : String)
    (allowed_authors : Option (List String)) (validation_enabled : Bool) :
    AuthorCheckResult :=
  let allowed := _normalize_allowed_authors
    (pyOrDefault allowed_authors DEFAULT_ALLOWED_TEMPLATE_AUTHORS)
  match target with
  | .absent =>
      ⟨false, "[ERROR] No se encontró la ruta: \"" ++ targetStr ++ "\"",
        [], true⟩
  | .dir entries =>
      let authors_found := (iter_template_files entries).filterMap
        fun f => (extractPure f.content).fst
      let message :=
        if authors_found.isEmpty then
          "[WARN] No se encontraron plantillas en \"" ++ targetStr ++ "\"."
        else
          "[INFO] Autores listados para la carpeta \"" ++ targetStr ++ "\"."
      ⟨true, message, authors_found, false⟩
  | .file c =>
      if validation_enabled = false then
        ⟨true,
          "[INFO] Validación de autores deshabilitada; se permite el archivo.",
          [], false⟩
      else
        match extractPure c with
        | (author, some e) =>
            match author with
            | _ => ⟨false, e, [], true⟩
        | (none, none) =>
            ⟨false,
              "[WARN] El archivo \"" ++ targetStr ++
                "\" no tiene autor asignado.", [], false⟩
        | (some a, none) =>
            let is_allowed := allowed.any fun x =>
              pyLower (pyStrip a) = pyLower x
            let message :=
              if is_allowed then "[OK] Autor aprobado."
              else "[BLOCKED] Autor no permitido para \"" ++ targetStr ++ "\"."
            ⟨is_allowed, message, [a], false⟩

theorem check_ok (target : FileKind) (targetStr : String)
    (aa : Option (List String)) (ve : Bool) :
    check_template_author target targetStr aa ve =
      Except.ok (checkPure target targetStr aa ve) := by
  cases target with
  | absent => rfl
  | dir entries =>
      simp only [check_template_author, checkPure, scanAuthors_ok]
      rfl
  | file c =>
      cases ve with
      | false => rfl
      | true =>
          simp only [check_template_author, checkPure, extract_author_ok]
          cases h : extractPure c with
          | mk author err =>
              cases err with
              | some e => cases author <;> rfl
              | none => cases author <;> rfl

end auth_tools

namespace common

/-- The tail of `common._extract_author` after a successful parse: the
candidate loop returns the stripped text of the first element with truthy
text directly (a whitespace-only text therefore yields an empty-string
author and no error message, unlike the auth_tools variant). -/
def creatorResult (fileName : String) (dc plain : Option String) :
    ExtractResult :=
  match firstTruthy dc plain with
  | none => (none, some ("[WARN] \"" ++ fileName ++ "\" sin autor definido."))
  | some t => (some (pyStrip t), none)

/-- common._extract_author: same nested try/except structure as the
auth_tools variant, with file names interpolated into the messages. -/
def _extract_author (exists_ : Bool) (pathStr fileName : String)
    (c : Content) : Except PyExc ExtractResult :=
  if exists_ = false then
    .ok (none, some ("[ERROR] No se encontró la ruta: \"" ++ pathStr ++ "\""))
  else
    pyTry
      (do
        let core? ← zipOpen c
        let parsed? ← pyTry
          (do
            let core ← entryOpen core?
            let r ← xmlParse core
            pure (some r))
          isKeyError
          (fun _ => .ok none)
        match parsed? with
        | none =>
            pure ((none : Option String),
              some ("[WARN] No se pudo obtener el autor para \"" ++ fileName ++
                "\" (core.xml ausente)."))
        | some (dc, plain) => pure (creatorResult fileName dc plain))
      isAnyExc
      (fun e => .ok (none, some ("[ERROR] " ++ fileName ++ ": " ++ excMsg e)))

/-- Exception-free value of `common._extract_author` on an existing file. -/
def extractPure (fileName : String) : Content → ExtractResult
  | .badZip m => (none, some ("[ERROR] " ++ fileName ++ ": " ++ m))
  | .zip none =>
      (none, some ("[WARN] No se pudo obtener el autor para \"" ++ fileName ++
        "\" (core.xml ausente)."))
  | .zip (some (.malformed m)) =>
      (none, some ("[ERROR] " ++ fileName ++ ": " ++ m))
  | .zip (some (.parsed dc plain)) => creatorResult fileName dc plain

theorem extract_author_ok_cm (s fileName : String) (c : Content) :
    _extract_author true s fileName c =
      Except.ok (extractPure fileName c) := by
  cases c with
  | badZip m => rfl
  | zip core =>
      cases core with
      | none => rfl
      | some x => cases x with
        | malformed m => rfl
        | parsed dc plain => rfl

/-- `common.iter_template_files` iterates the extension set directly; a
Python set has no specified order, so the order is a parameter here. -/
def iter_template_files (extOrder : List String)
    (entries : List DirEntry) : List DirEntry :=
  extOrder.flatMap fun ext => entries.filter fun e => globExt e.name ext

/-- The directory-scan loop of `common.check_template_author`: files whose
suffix is `.thmx` are skipped (`continue`) before any extraction is
attempted; otherwise as in the auth_tools variant. -/
def scanAuthors : List DirEntry → Except PyExc (List String)
  | [] => .ok []
  | f :: rest =>
      if pyLower (pathSuffix f.name) = ".thmx" then scanAuthors rest
      else do
        let (author, _err) ← _extract_author true f.name f.name f.content
        let tail ← scanAuthors rest
        pure (match author with
          | some a => a :: tail
          | none => tail)

theorem scanAuthors_ok_cm (files : List DirEntry) :
    scanAuthors files =
      Except.ok ((files.filter fun f =>
          !(pyLower (pathSuffix f.name) == ".thmx")).filterMap
        fun f => (extractPure f.name f.content).fst) := by
  induction files with
  | nil => rfl
  | cons f rest ih =>
      by_cases hx : pyLower (pathSuffix f.name) = ".thmx"
      · unfold scanAuthors
        simp [hx, ih, List.filter_cons]
      · simp only [scanAuthors, hx, if_false, extract_author_ok_cm, ih,
          List.filter_cons, List.filterMap_cons, bind, Except.bind]
        cases h : (extractPure f.name f.content).fst with
        | none => simp [h, pure, Except.pure, hx]
        | some a => simp [h, pure, Except.pure, hx]

/-- common.check_template_author.  Differences from the auth_tools variant:
the directory scan skips `.thmx` files, a single `.thmx` file is allowed
without extraction, the author comparison does not re-strip, and an
empty-string author falls into the no-author branch with `error=False`. -/
def check_template_author (extOrder : List String) (target : FileKind)
    (targetStr : String) (allowed_authors : Option (List String))
    (validation_enabled : Bool) : Except PyExc AuthorCheckResult :=
  let allowed := _normalize_allowed_authors
    (pyOrDefault allowed_authors DEFAULT_ALLOWED_TEMPLATE_AUTHORS)
  match target with
  | .absent =>
      .ok ⟨false, "[ERROR] No se encontró la ruta: \"" ++ targetStr ++ "\"",
        [], true⟩
  | .dir entries => do
      let authors_found ← scanAuthors (iter_template_files extOrder entries)
      let message :=
        if authors_found.isEmpty then
          "[WARN] No se encontraron plantillas en \"" ++ targetStr ++ "\"."
        else
          "[INFO] Autores listados para la carpeta \"" ++ targetStr ++ "\"."
      pure ⟨true, message, authors_found, false⟩
  | .file c =>
      if validation_enabled = false then
        .ok ⟨true, "[INFO] Validación de autores deshabilitada.", [], false⟩
      else if pyLower (pathSuffix targetStr) = ".thmx" then
        .ok ⟨true, "[INFO] Validación de autor omitida para temas.", [], false⟩
      else do
        let (author, err) ← _extract_author true targetStr targetStr c
        match err with
        | some e => pure ⟨false, e, [], true⟩
        | none =>
            match author with
            | none =>
                pure ⟨false,
                  "[WARN] El archivo \"" ++ targetStr ++
                    "\" no tiene autor asignado.", [], false⟩
            | some a =>
                if a = "" then
                  pure ⟨false,
                    "[WARN] El archivo \"" ++ targetStr ++
                      "\" no tiene autor asignado.", [], false⟩
                else
                  let is_allowed := allowed.any fun x =>
                    pyLower a = pyLower x
                  let message :=
                    if is_allowed then "[OK] Autor aprobado."
                    else
                      "[BLOCKED] Autor no permitido para \"" ++ targetStr ++ "\"."
                  pure ⟨is_allowed, message, [a], false⟩

/-- Exception-free value of `common.check_template_author`. -/
def checkPure (extOrder : List String) (target : FileKind)
    (targetStr : String) (allowed_authors : Option (List String))
    (validation_enabled : Bool) : AuthorCheckResult :=
  let allowed := _normalize_allowed_authors
    (pyOrDefault allowed_authors DEFAULT_ALLOWED_TEMPLATE_AUTHORS)
  match target with
  | .absent =>
      ⟨false, "[ERROR] No se encontró la ruta: \"" ++ targetStr ++ "\"",
        [], true⟩
  | .dir entries =>
      let authors_found := ((iter_template_files extOrder entries).filter
          fun f => !(pyLower (pathSuffix f.name) == ".thmx")).filterMap
        fun f => (extractPure f.name f.content).fst
      let message :=
        if authors_found.isEmpty then
          "[WARN] No se encontraron plantillas en \"" ++ targetStr ++ "\"."
        else
          "[INFO] Autores listados para la carpeta \"" ++ targetStr ++ "\"."
      ⟨true, message, authors_found, false⟩
  | .file c =>
      if validation_enabled = false then
        ⟨true, "[INFO] Validación de autores deshabilitada.", [], false⟩
      else if pyLower (pathSuffix targetStr) = ".thmx" then
        ⟨true, "[INFO] Validación de autor omitida para temas.", [], false⟩
      else
        match extractPure targetStr c with
        | (author, some e) =>
            match author with
            | _ => ⟨false, e, [], true⟩
        | (none, none) =>
            ⟨false,
              "[WARN] El archivo \"" ++ targetStr ++
                "\" no tiene autor asignado.", [], false⟩
        | (some a, none) =>
            if a = "" then
              ⟨false,
                "[WARN] El archivo \"" ++ targetStr ++
                  "\" no tiene autor asignado.", [], false⟩
            else
              let is_allowed := allowed.any fun x => pyLower a = pyLower x
              let message :=
                if is_allowed then "[OK] Autor aprobado."
                else "[BLOCKED] Autor no permitido para \"" ++ targetStr ++ "\"."
              ⟨is_allowed, message, [a], false⟩

theorem check_ok_cm (extOrder : List String) (target : FileKind)
    (targetStr : String) (aa : Option (List String)) (ve : Bool) :
    check_template_author extOrder target targetStr aa ve =
      Except.ok (checkPure extOrder target targetStr aa ve) := by
  cases target with
  | absent => rfl
  | dir entries =>
      simp only [check_template_author, checkPure, scanAuthors_ok_cm]
      rfl
  | file c =>
      cases ve with
      | false => rfl
      | true =>
          by_cases ht : pyLower (pathSuffix targetStr) = ".thmx"
          · simp [check_template_author, checkPure, ht]
          · simp only [check_template_author, checkPure, ht,
              extract_author_ok_cm]
            cases h : extractPure targetStr c with
            | mk author err =>
                cases err with
                | some e => cases author <;> rfl
                | none =>
                    cases author with
                    | none => rfl
                    | some a =>
                        by_cases ha : a = ""
                        · simp [ha, pure, Except.pure, bind, Except.bind]
                        · simp [ha, pure, Except.pure, bind, Except.bind]

end common

/-- The `totals` dictionary shared by install passes. -/
structure Totals where
  files : Nat
  errors : Nat
  blocked : Nat
deriving Repr, DecidableEq

/-- Filesystem writes performed by an install, in order.  `mkdirAt` is
recorded only when a directory is actually created (Python's
`mkdir(parents=True, exist_ok=True)` on an existing directory changes
nothing). -/
inductive FsEvent
  | mkdirAt (p : String)
  | backupCopyAt (p : String)
  | copyAt (p : String)
deriving Repr, DecidableEq

/-- Outcome of `shutil.copy2(source, destination)`: success, an `OSError`,
or the return-without-effect case the main installer guards against with
its `destination.exists()` check. -/
inductive CopyOutcome
  | ok
  | silentFail
  | raiseOS (msg : String)
deriving Repr, DecidableEq

/-- One per-file install situation: what the filesystem holds and how the
fallible primitives behave on this run.  Paths are abstract strings joined
with `/`. -/
structure InstallEnv where
  /-- What is at `base_directory / filename`. -/
  source : FileKind
  /-- The template's filename (also used in messages). -/
  sourceName : String
  /-- The destination directory path. -/
  destRoot : String
  /-- Whether the destination directory already exists. -/
  destDirExists : Bool
  /-- Whether `mkdir` on the destination directory succeeds. -/
  mkdirDestOk : Bool
  /-- Whether the destination file already exists (backup trigger). -/
  destFileExists : Bool
  /-- Whether the `Backup` subdirectory already exists. -/
  backupDirExists : Bool
  /-- Whether `mkdir` on the `Backup` subdirectory succeeds. -/
  mkdirBackupOk : Bool
  /-- Whether `shutil.copy2` into the backup succeeds. -/
  backupCopyOk : Bool
  /-- Outcome of `shutil.copy2(source, destination)`. -/
  copy : CopyOutcome
  /-- `datetime.now().strftime("%Y.%m.%d.%H%M")` for the backup name. -/
  timestamp : String
deriving Repr, DecidableEq

/-- Result of a translated stateful routine: normal return or an exception
propagating out of it; either way the totals and the filesystem writes
performed so far are kept (Python mutations are not rolled back). -/
inductive RunResult (α : Type)
  | ok (val : α) (totals : Totals) (events : List FsEvent)
  | exc (e : PyExc) (totals : Totals) (events : List FsEvent)
deriving Repr, DecidableEq

/-- `ensure_directory(path)` = `path.mkdir(parents=True, exist_ok=True)`:
no-op on an existing directory, otherwise creates it or raises OSError. -/
def ensureDir (dirExists mkdirOk : Bool) (p : String) :
    Except PyExc (List FsEvent) :=
  if dirExists then .ok []
  else if mkdirOk then .ok [.mkdirAt p]
  else .error (.osError ("mkdir failed: " ++ p))

/-- The destination file path `destination_directory / filename`. -/
def destPath (env : InstallEnv) : String :=
  env.destRoot ++ "/" ++ env.sourceName

/-- The backup directory `target_file.parent / "Backup"`. -/
def backupDir (env : InstallEnv) : String :=
  env.destRoot ++ "/Backup"

/-- The backup file path `backup_dir / (timestamp ++ "_" ++ name)`. -/
def backupPath (env : InstallEnv) : String :=
  backupDir env ++ "/" ++ env.timestamp ++ "_" ++ env.sourceName

namespace main_installer

/-- main_installer.backup_existing_template: both the creation of the
`Backup` directory and the copy into it sit inside `try/except OSError`
blocks, so this routine only logs on failure and never raises. -/
def backup_existing_template (env : InstallEnv) : List FsEvent :=
  if env.destFileExists = false then []
  else
    match ensureDir env.backupDirExists env.mkdirBackupOk (backupDir env) with
    | .error _ => []
    | .ok evs =>
        if env.backupCopyOk then evs ++ [.backupCopyAt (backupPath env)]
        else evs

/-- main_installer._install_single_template.  The destination directory is
ensured (unprotected) before anything else; a missing source counts an
error; the author check uses `auth_tools.check_template_author`; a
blocked author counts `blocked`; then the backup runs and
`shutil.copy2(source, destination)` is called with NO surrounding
try/except, so an OSError from the copy propagates out; when the copy
returns, `destination.exists()` decides between `files += 1` and
`errors += 1`.  Returns the `installed` flag of the `InstallOutcome`. -/
def _install_single_template (env : InstallEnv)
    (allowed_authors : Option (List String)) (validation_enabled : Bool)
    (t : Totals) : RunResult Bool :=
  match ensureDir env.destDirExists env.mkdirDestOk env.destRoot with
  | .error e => .exc e t []
  | .ok ev0 =>
      if env.source = FileKind.absent then
        .ok false { t with errors := t.errors + 1 } ev0
      else
        match auth_tools.check_template_author env.source env.sourceName
            allowed_authors validation_enabled with
        | .error e => .exc e t ev0
        | .ok author_check =>
            if author_check.allowed = false then
              .ok false { t with blocked := t.blocked + 1 } ev0
            else
              let bev := backup_existing_template env
              match env.copy with
              | .raiseOS m => .exc (.osError m) t (ev0 ++ bev)
              | .ok =>
                  .ok true { t with files := t.files + 1 }
                    (ev0 ++ bev ++ [.copyAt (destPath env)])
              | .silentFail =>
                  .ok false { t with errors := t.errors + 1 }
                    (ev0 ++ bev ++ [.copyAt (destPath env)])

end main_installer

namespace common

/-- common.backup_existing: the copy into the backup is inside
`try/except OSError`, but `ensure_directory(backup_dir)` is NOT — a
failure to create the `Backup` directory propagates out of this routine. -/
def backup_existing (env : InstallEnv) : Except PyExc (List FsEvent) :=
  if env.destFileExists = false then .ok []
  else do
    let evs ← ensureDir env.backupDirExists env.mkdirBackupOk (backupDir env)
    if env.backupCopyOk then pure (evs ++ [.backupCopyAt (backupPath env)])
    else pure evs

/-- common.install_template.  Same shape as the main installer's routine,
except: the author check is `common.check_template_author`;
`backup_existing` can propagate an exception (see above); and
`ensure_parents_and_copy` plus the counter update sit inside
`try/except OSError`, so a copy failure counts `errors` and returns
normally.  `ensure_directory(destination.parent)` inside
`ensure_parents_and_copy` re-ensures the directory already ensured at
entry, hence changes nothing.  The copy's success is not re-checked with
`destination.exists()`, so the silent-failure case still counts `files`. -/
def install_template (env : InstallEnv)
    (allowed_authors : Option (List String)) (validation_enabled : Bool)
    (t : Totals) : RunResult Unit :=
  match ensureDir env.destDirExists env.mkdirDestOk env.destRoot with
  | .error e => .exc e t []
  | .ok ev0 =>
      if env.source = FileKind.absent then
        .ok () { t with errors := t.errors + 1 } ev0
      else
        match check_template_author SUPPORTED_EXTENSIONS_SORTED env.source
            env.sourceName allowed_authors validation_enabled with
        | .error e => .exc e t ev0
        | .ok author_check =>
            if author_check.allowed = false then
              .ok () { t with blocked := t.blocked + 1 } ev0
            else
              match backup_existing env with
              | .error e => .exc e t ev0
              | .ok bev =>
                  match env.copy with
                  | .raiseOS _ =>
                      .ok () { t with errors := t.errors + 1 } (ev0 ++ bev)
                  | _ =>
                      .ok () { t with files := t.files + 1 }
                        (ev0 ++ bev ++ [.copyAt (destPath env)])

end common

/-- Inserting into a Python dict: a repeated key is overwritten in place,
a new key is appended (insertion order preserved). -/
def dictInsert (m : List (String × List String)) (k : String)
    (v : List String) : List (String × List String) :=
  if m.any (fun p => p.1 = k) then
    m.map fun p => if p.1 = k then (k, v) else p
  else m ++ [(k, v)]

/-- The sequential deletion loop shared by `remove_installed_templates`
and `delete_custom_copies`: for each target path, inside
`try/except OSError`, delete it if it exists (an absent target is simply
skipped); a failing `unlink` is logged as a warning and leaves the file in
place.  Returns the remaining filesystem, the deleted paths in order, and
the number of warnings logged. -/
def processTargets (targets : List String) (unlinkFails : String → Bool)
    (fs : List String) : List String × List String × Nat :=
  match targets with
  | [] => (fs, [], 0)
  | tgt :: rest =>
      if tgt ∈ fs then
        if unlinkFails tgt then
          let r := processTargets rest unlinkFails fs
          (r.1, r.2.1, r.2.2 + 1)
        else
          let r := processTargets rest unlinkFails (fs.filter fun p => p ≠ tgt)
          (r.1, tgt :: r.2.1, r.2.2)
      else processTargets rest unlinkFails fs

/-- common.remove_installed_templates: a `targets` dict maps each
destination directory (`WORD`, `POWERPOINT`, `EXCEL`, `THEMES` keys of the
destinations map) to the base-template filenames to delete there.  The
dict is keyed by path, so equal destination paths collapse with the later
file list overwriting the earlier one, exactly as in Python. -/
def baseTargets (wordDest pptDest excelDest themesDest : String) :
    List String :=
  let targets :=
    dictInsert (dictInsert (dictInsert (dictInsert []
      wordDest
      ["Normal.dotx", "Normal.dotm", "NormalEmail.dotx", "NormalEmail.dotm"])
      pptDest ["Blank.potx", "Blank.potm"])
      excelDest ["Book.xltx", "Book.xltm", "Sheet.xltx", "Sheet.xltm"])
      themesDest []
  targets.flatMap fun p => p.2.map fun n => p.1 ++ "/" ++ n

def remove_installed_templates (wordDest pptDest excelDest themesDest : String)
    (unlinkFails : String → Bool) (fs : List String) :
    List String × List String × Nat :=
  processTargets (baseTargets wordDest pptDest excelDest themesDest)
    unlinkFails fs

/-- common.delete_custom_copies: scan the staging directory, skip base
names, and for every remaining template file try to delete its name from
every destination directory (`destinations.values()`, duplicates
included). -/
def customTargets (entries : List DirEntry) (destValues : List String) :
    List String :=
  ((iter_template_files entries).filter
      fun f => !(BASE_TEMPLATE_NAMES.contains f.name)).flatMap
    fun f => destValues.map fun d => d ++ "/" ++ f.name

def delete_custom_copies (entries : List DirEntry) (destValues : List String)
    (unlinkFails : String → Bool) (fs : List String) :
    List String × List String × Nat :=
  processTargets (customTargets entries destValues) unlinkFails fs

/-- The uninstall pass as driven by `uninstaller.main`:
`remove_installed_templates` followed by `delete_custom_copies`. -/
def run_uninstall (wordDest pptDest excelDest themesDest : String)
    (destValues : List String) (entries : List DirEntry)
    (unlinkFails : String → Bool) (fs : List String) :
    List String × List String × Nat :=
  let r1 := remove_installed_templates wordDest pptDest excelDest themesDest
    unlinkFails fs
  let r2 := delete_custom_copies entries destValues unlinkFails r1.1
  (r2.1, r1.2.1 ++ r2.2.1, r1.2.2 + r2.2.2)

namespace main_installer

/-- main_installer._destination_for_extension: extension-to-destination
routing for the custom-template pass; the four paths are the detected
Word / PowerPoint / Excel custom-template directories and the
document-theme directory. -/
def _destination_for_extension (extension : String)
    (word_path ppt_path excel_path document_theme_path : String) :
    Option String :=
  if extension = ".dotx" ∨ extension = ".dotm" then some word_path
  else if extension = ".potx" ∨ extension = ".potm" then some ppt_path
  else if extension = ".xltx" ∨ extension = ".xltm" then some excel_path
  else if extension = ".thmx" then some document_theme_path
  else none

end main_installer

/-- The destination-map entries read by `common._destination_for_extension`
(`destinations["WORD"]`, `["POWERPOINT"]`, `["EXCEL"]`, `["THEMES"]`). -/
structure CommonDests where
  word : String
  powerpoint : String
  excel : String
  themes : String
deriving Repr, DecidableEq

namespace common

/-- common._destination_for_extension. -/
def _destination_for_extension (extension : String) (d : CommonDests) :
    Option String :=
  if extension = ".dotx" ∨ extension = ".dotm" then some d.word
  else if extension = ".potx" ∨ extension = ".potm" then some d.powerpoint
  else if extension = ".xltx" ∨ extension = ".xltm" then some d.excel
  else if extension = ".thmx" then some d.themes
  else none

end common

/-- A successful `mkdir` call: no-op on an existing directory, one
creation event otherwise. -/
theorem ensureDir_ok_of_mkdirOk (d : Bool) (p : String) :
    ensureDir d true p = .ok (if d then [] else [FsEvent.mkdirAt p]) := by
  cases d <;> rfl

/-- A string with a non-empty prefix is non-empty. -/
theorem append_ne_empty_left (a b : String) (h : a.data ≠ []) :
    a ++ b ≠ "" := by
  intro hab
  have hd : a.data ++ b.data = [] := by
    have hc := congrArg String.data hab
    simpa using hc
  exact h (List.append_eq_nil.mp hd).1

/-- A template container whose Dublin-Core creator is the first default
allowed author. -/
def gradaContent : Content :=
  Content.zip (some (CoreXml.parsed (some "www.grada.cc") none))

/-- A template container whose Dublin-Core creator is not allowlisted. -/
def intruderContent : Content :=
  Content.zip (some (CoreXml.parsed (some "intruder") none))

/-- A per-file install of `Normal.dotx` by an allowed author into an
existing destination directory with no pre-existing destination file,
where `shutil.copy2(source, destination)` raises an OSError. -/
def envCopyFail : InstallEnv :=
  { source := FileKind.file gradaContent
    sourceName := "Normal.dotx"
    destRoot := "DEST"
    destDirExists := true
    mkdirDestOk := true
    destFileExists := false
    backupDirExists := true
    mkdirBackupOk := true
    backupCopyOk := true
    copy := CopyOutcome.raiseOS "disk full"
    timestamp := "2026.01.01.0000" }

/-- C1: the claim says every copy I/O failure increments `errors`, reports
the file as not installed, and never propagates as an exception aborting
the run.  `common.install_template` behaves that way (second conjunct),
but `main_installer._install_single_template` calls `shutil.copy2` with no
surrounding try/except, so on the very same input the OSError propagates
out of the routine (first conjunct) and would abort the base-install loop
and `main`.  The code contradicts both the spec and its own fallback
branch (`errors += 1` when the destination is missing after the copy), so
this is a code bug, witnessed here by evaluating both engines on the same
failing input. -/
theorem c1_copy_failure_code_bug :
    main_installer._install_single_template envCopyFail none true ⟨0, 0, 0⟩ =
      RunResult.exc (PyExc.osError "disk full") ⟨0, 0, 0⟩ [] ∧
    common.install_template envCopyFail none true ⟨0, 0, 0⟩ =
      RunResult.ok () ⟨0, 1, 0⟩ [] := by
  exact ⟨rfl, rfl⟩

/-- A per-file install of `Normal.dotx` by an allowed author where the
destination file already exists, the `Backup` directory does not, and
creating it raises an OSError; the main copy itself would succeed. -/
def envBackupFail : InstallEnv :=
  { envCopyFail with
    destFileExists := true
    backupDirExists := false
    mkdirBackupOk := false
    copy := CopyOutcome.ok }

/-- C2: the claim says a backup failure (creating the Backup directory or
copying into it) is logged only and never prevents the subsequent copy.
`main_installer.backup_existing_template` catches the OSError, so the
install completes and is counted under `files` (second conjunct), but
`common.backup_existing` calls `ensure_directory(backup_dir)` outside its
try block, so on the same input the OSError propagates out of
`common.install_template` before the copy, the install never completes and
nothing is counted (first conjunct).  The spec and the twin implementation
show the intent; the unprotected `ensure_directory` is a code bug. -/
theorem c2_backup_failure_code_bug :
    common.install_template envBackupFail none true ⟨0, 0, 0⟩ =
      RunResult.exc (PyExc.osError "mkdir failed: DEST/Backup") ⟨0, 0, 0⟩ [] ∧
    main_installer._install_single_template envBackupFail none true ⟨0, 0, 0⟩ =
      RunResult.ok true ⟨1, 0, 0⟩ [FsEvent.copyAt "DEST/Normal.dotx"] := by
  exact ⟨rfl, rfl⟩

/-- A per-file install of a template by a non-allowlisted author into a
destination directory that does not exist yet. -/
def envBlockedNewDir : InstallEnv :=
  { envCopyFail with
    source := FileKind.file intruderContent
    destDirExists := false
    copy := CopyOutcome.ok }

/-- C3 counterexample: the claim says that when the author check returns
not-allowed, `blocked` is incremented, the file is skipped, and no
filesystem side effect (no directory created, no backup, no copy) has
occurred for that file.  Here the author is blocked and `blocked` is
incremented — but the destination directory, absent beforehand, has been
created (`FsEvent.mkdirAt "DEST"`), because both engines run
`ensure_directory(destination_root)` before the existence and author
checks.  The "no directory created" part of the claim is therefore false. -/
theorem c3_counterexample :
    main_installer._install_single_template envBlockedNewDir none true
        ⟨0, 0, 0⟩ =
      RunResult.ok false ⟨0, 0, 1⟩ [FsEvent.mkdirAt "DEST"] := by
  exact rfl

/-- C3 (amended): when the author check returns not-allowed (and the
destination `mkdir` did not itself fail), both engines increment `blocked`
by one, leave `files` and `errors` untouched, report the file as not
installed, and perform no backup and no copy for that file; the only
filesystem effect that may already have happened is the idempotent
creation of the destination directory, which both engines perform before
the source-existence and author checks. -/
theorem c3_blocked_stop_amended (env : InstallEnv)
    (aa : Option (List String)) (ve : Bool) (t : Totals)
    (res res2 : AuthorCheckResult)
    (hmk : env.mkdirDestOk = true)
    (hsrc : env.source ≠ FileKind.absent)
    (h1 : auth_tools.check_template_author env.source env.sourceName aa ve =
      Except.ok res)
    (h1a : res.allowed = false)
    (h2 : common.check_template_author SUPPORTED_EXTENSIONS_SORTED env.source
      env.sourceName aa ve = Except.ok res2)
    (h2a : res2.allowed = false) :
    main_installer._install_single_template env aa ve t =
      RunResult.ok false { t with blocked := t.blocked + 1 }
        (if env.destDirExists then [] else [FsEvent.mkdirAt env.destRoot]) ∧
    common.install_template env aa ve t =
      RunResult.ok () { t with blocked := t.blocked + 1 }
        (if env.destDirExists then [] else [FsEvent.mkdirAt env.destRoot]) ∧
    ∀ p,
      FsEvent.copyAt p ∉
        (if env.destDirExists then ([] : List FsEvent)
         else [FsEvent.mkdirAt env.destRoot]) ∧
      FsEvent.backupCopyAt p ∉
        (if env.destDirExists then ([] : List FsEvent)
         else [FsEvent.mkdirAt env.destRoot]) := by
  refine ⟨?_, ?_, ?_⟩
  · simp only [main_installer._install_single_template, hmk,
      ensureDir_ok_of_mkdirOk, h1, h1a, hsrc, if_false]
    simp [hsrc, h1a]
  · simp only [common.install_template, hmk, ensureDir_ok_of_mkdirOk, h2,
      h2a, hsrc, if_false]
    simp [hsrc, h2a]
  · intro p
    cases h : env.destDirExists <;> simp

/-- The blocked-author install of `envBlockedNewDir` with the destination
directory already present. -/
def envBlockedExisting : InstallEnv :=
  { envBlockedNewDir with destDirExists := true }

/-- Witness for `c3_blocked_stop_amended` at a concrete input. -/
theorem c3_blocked_stop_amended_witness :
    main_installer._install_single_template envBlockedExisting none true
        ⟨0, 0, 0⟩ =
      RunResult.ok false ⟨0, 0, 1⟩
        (if envBlockedExisting.destDirExists then []
         else [FsEvent.mkdirAt envBlockedExisting.destRoot]) :=
  (c3_blocked_stop_amended envBlockedExisting none true ⟨0, 0, 0⟩
    ⟨false, "[BLOCKED] Autor no permitido para \"Normal.dotx\".",
      ["intruder"], false⟩
    ⟨false, "[BLOCKED] Autor no permitido para \"Normal.dotx\".",
      ["intruder"], false⟩
    rfl (by decide) rfl rfl rfl rfl).1

/-- C4 counterexample: the claim says check_template_author on an existing
single `.thmx` file with validation enabled returns allowed=true without
attempting author extraction.  `auth_tools.check_template_author` — the
variant `main_installer` actually calls — has no theme branch for single
files: on a `.thmx` file it extracts the author and here returns
allowed=false (with the extracted author in the result, proving the
extraction was attempted), so the claim as stated is false. -/
theorem c4_counterexample :
    auth_tools.check_template_author (FileKind.file intruderContent)
        "Evil.thmx" none true =
      Except.ok ⟨false, "[BLOCKED] Autor no permitido para \"Evil.thmx\".",
        ["intruder"], false⟩ := by
  exact rfl

/-- C4 (amended): the claimed behaviour holds for
`common.check_template_author`: an existing single file whose suffix
lower-cases to `.thmx` is allowed with validation enabled, with a result
that does not depend on the file's contents (so no extraction can have
been attempted); `auth_tools.check_template_author` instead extracts and
validates the author even for `.thmx` files. -/
theorem c4_thmx_skip_amended (c : Content) (name : String)
    (aa : Option (List String))
    (h : pyLower (pathSuffix name) = ".thmx") :
    common.check_template_author SUPPORTED_EXTENSIONS_SORTED
        (FileKind.file c) name aa true =
      Except.ok ⟨true, "[INFO] Validación de autor omitida para temas.",
        [], false⟩ := by
  simp [common.check_template_author, h]

/-- Witness for `c4_thmx_skip_amended`: a `.thmx` file that is not even a
readable archive is still allowed without extraction. -/
theorem c4_thmx_skip_amended_witness :
    common.check_template_author SUPPORTED_EXTENSIONS_SORTED
        (FileKind.file (Content.badZip "not a zip")) "Theme.thmx" none true =
      Except.ok ⟨true, "[INFO] Validación de autor omitida para temas.",
        [], false⟩ :=
  c4_thmx_skip_amended (Content.badZip "not a zip") "Theme.thmx" none
    (by decide)

/-- C10 counterexample: the claim says an allowed_authors collection
containing only blank strings silently falls back to the default
allowlist.  It does not: `[" "]` is truthy, so Python's
`allowed_authors or DEFAULT_ALLOWED_TEMPLATE_AUTHORS` keeps it, and
normalization empties it, blocking even `www.grada.cc` — the first entry
of the default allowlist, which the claimed fallback would have allowed. -/
theorem c10_counterexample :
    auth_tools.check_template_author (FileKind.file gradaContent) "t.dotx"
        (some [" "]) true =
      Except.ok ⟨false, "[BLOCKED] Autor no permitido para \"t.dotx\".",
        ["www.grada.cc"], false⟩ := by
  exact rfl

/-- Python truthiness on a non-empty list: `l or d` keeps `l`. -/
theorem pyOrDefault_some_of_ne_nil (l d : List String) (h : l ≠ []) :
    pyOrDefault (some l) d = l := by
  cases l with
  | nil => exact absurd rfl h
  | cons a rest => rfl

/-- Normalizing a list of blank entries yields the empty allowlist. -/
theorem normalize_blank_eq_nil (l : List String)
    (h : ∀ a ∈ l, pyStrip a = "") : _normalize_allowed_authors l = [] := by
  induction l with
  | nil => rfl
  | cons a rest ih =>
      have ha : pyStrip a = "" := h a (by simp)
      have hr : ∀ x ∈ rest, pyStrip x = "" := fun x hx => h x (by simp [hx])
      have ih2 := ih hr
      simp only [_normalize_allowed_authors] at ih2 ⊢
      simp [List.filterMap_cons, ha, ih2]

/-- C10 (amended): an explicitly empty allowed_authors collection is falsy
in Python, so it does fall back to the built-in default allowlist
(`some []` behaves exactly like `none`); but a non-empty collection of
only blank strings is truthy, bypasses the fallback, and normalizes to an
empty effective allowlist, under which no single file is ever allowed
when validation is enabled — every author is blocked rather than checked
against the defaults. -/
theorem c10_blank_allowlist_amended :
    (∀ (k : FileKind) (n : String) (ve : Bool),
      auth_tools.check_template_author k n (some []) ve =
        auth_tools.check_template_author k n none ve) ∧
    (∀ l : List String, l ≠ [] → (∀ a ∈ l, pyStrip a = "") →
      ∀ (c : Content) (n : String),
        ∃ r, auth_tools.check_template_author (FileKind.file c) n
            (some l) true = Except.ok r ∧ r.allowed = false) := by
  constructor
  · intro k n ve
    rfl
  · intro l hne hblank c n
    refine ⟨auth_tools.checkPure (FileKind.file c) n (some l) true,
      auth_tools.check_ok _ _ _ _, ?_⟩
    have hl : _normalize_allowed_authors
        (pyOrDefault (some l) DEFAULT_ALLOWED_TEMPLATE_AUTHORS) = [] := by
      rw [pyOrDefault_some_of_ne_nil l _ hne]
      exact normalize_blank_eq_nil l hblank
    cases c with
    | badZip m => rfl
    | zip core =>
        cases core with
        | none => rfl
        | some x =>
            cases x with
            | malformed m => rfl
            | parsed dc plain =>
                simp only [auth_tools.checkPure, auth_tools.extractPure, hl]
                cases hft : firstTruthy dc plain with
                | none => simp [auth_tools.creatorResult, hft]
                | some tt =>
                    by_cases hts : pyStrip tt = ""
                    · simp [auth_tools.creatorResult, hft, hts]
                    · simp [auth_tools.creatorResult, hft, hts]

/-- Witness for `c10_blank_allowlist_amended` at a concrete blank-only
allowlist and a default-allowed author. -/
theorem c10_blank_allowlist_amended_witness :
    ∃ r, auth_tools.check_template_author (FileKind.file gradaContent)
        "w.dotx" (some [" ", ""]) true = Except.ok r ∧ r.allowed = false :=
  c10_blank_allowlist_amended.2 [" ", ""] (by decide) (by decide)
    gradaContent "w.dotx"

/-- The extraction-failure contents named by the spec: a non-ZIP file, a
container without `docProps/core.xml`, and malformed XML. -/
def extractionFails : Content → Bool
  | .badZip _ => true
  | .zip none => true
  | .zip (some (.malformed _)) => true
  | .zip (some (.parsed _ _)) => false

/-- C5: for every input, `auth_tools.check_template_author` returns a
result instead of letting an exception propagate (the translated
`Except` value is always `ok`, for files, directories and missing paths
alike), and every extraction failure — non-ZIP file, missing
`docProps/core.xml`, malformed XML — is turned into a result with
allowed=false, a non-empty diagnostic message, and the error flag set
(which in particular covers the hard I/O failures). -/
theorem c5_never_raises (k : FileKind) (name : String)
    (aa : Option (List String)) (ve : Bool) :
    ∃ r, auth_tools.check_template_author k name aa ve = Except.ok r ∧
      ∀ c : Content, k = FileKind.file c → ve = true →
        extractionFails c = true →
          r.allowed = false ∧ r.error = true ∧ r.message ≠ "" := by
  refine ⟨auth_tools.checkPure k name aa ve,
    auth_tools.check_ok k name aa ve, ?_⟩
  rintro c rfl rfl hf
  cases c with
  | badZip m =>
      exact ⟨rfl, rfl, append_ne_empty_left "[ERROR] " m (by decide)⟩
  | zip core =>
      cases core with
      | none =>
          refine ⟨rfl, rfl, ?_⟩
          show ("[WARN] No se pudo obtener el autor (core.xml ausente)." :
            String) ≠ ""
          decide
      | some x =>
          cases x with
          | malformed m =>
              exact ⟨rfl, rfl, append_ne_empty_left "[ERROR] " m (by decide)⟩
          | parsed dc plain => simp [extractionFails] at hf

/-- Witness for `c5_never_raises` at a concrete non-ZIP file. -/
theorem c5_never_raises_witness :
    ∃ r, auth_tools.check_template_author
        (FileKind.file (Content.badZip "File is not a zip file")) "x.dotx"
        none true = Except.ok r ∧
      ∀ c : Content,
        FileKind.file (Content.badZip "File is not a zip file") =
          FileKind.file c → true = true → extractionFails c = true →
            r.allowed = false ∧ r.error = true ∧ r.message ≠ "" :=
  c5_never_raises (FileKind.file (Content.badZip "File is not a zip file"))
    "x.dotx" none true

/-- C6: a directory target always yields allowed=true with error=false,
and the authors list is exactly the successful extractions over the
scanned template-extension files, in scan order (a failed or empty
extraction contributes nothing and never aborts the scan or flips the
result).  For `auth_tools.check_template_author` every scanned file has
extraction attempted; `common.check_template_author` additionally skips
`.thmx` files before extraction (for any iteration order of its extension
set), which the spec's design notes call the canonical behaviour. -/
theorem c6_directory_scan (entries : List DirEntry) (name : String)
    (aa : Option (List String)) (ve : Bool) (extOrder : List String) :
    (∃ r, auth_tools.check_template_author (FileKind.dir entries) name aa
        ve = Except.ok r ∧
      r.allowed = true ∧ r.error = false ∧
      r.authors = (iter_template_files entries).filterMap
        (fun f => (auth_tools.extractPure f.content).fst)) ∧
    (∃ r2, common.check_template_author extOrder (FileKind.dir entries)
        name aa ve = Except.ok r2 ∧
      r2.allowed = true ∧ r2.error = false ∧
      r2.authors = ((common.iter_template_files extOrder entries).filter
          (fun f => !(pyLower (pathSuffix f.name) == ".thmx"))).filterMap
        (fun f => (common.extractPure f.name f.content).fst)) := by
  constructor
  · exact ⟨auth_tools.checkPure (FileKind.dir entries) name aa ve,
      auth_tools.check_ok _ _ _ _, rfl, rfl, rfl⟩
  · exact ⟨common.checkPure extOrder (FileKind.dir entries) name aa ve,
      common.check_ok_cm _ _ _ _ _, rfl, rfl, rfl⟩

/-- C7: with validation disabled, the author check on an existing single
file returns allowed=true with a result that is the same for every file
content (so the file is never inspected), and installing such a file —
whatever its embedded author — increments `files` by one while leaving
`blocked` (and `errors`) untouched. -/
theorem c7_validation_bypass (c : Content) (env : InstallEnv)
    (aa : Option (List String)) (t : Totals)
    (hsrc : env.source = FileKind.file c)
    (hmk : env.mkdirDestOk = true)
    (hcopy : env.copy = CopyOutcome.ok) :
    auth_tools.check_template_author (FileKind.file c) env.sourceName aa
        false =
      Except.ok ⟨true,
        "[INFO] Validación de autores deshabilitada; se permite el archivo.",
        [], false⟩ ∧
    ∃ evs, main_installer._install_single_template env aa false t =
      RunResult.ok true { t with files := t.files + 1 } evs := by
  constructor
  · rfl
  · refine ⟨(if env.destDirExists then [] else [FsEvent.mkdirAt env.destRoot])
      ++ main_installer.backup_existing_template env
      ++ [FsEvent.copyAt (destPath env)], ?_⟩
    have habs : ¬ env.source = FileKind.absent := by
      rw [hsrc]; intro hh; cases hh
    simp only [main_installer._install_single_template, hmk,
      ensureDir_ok_of_mkdirOk, habs, if_false, hsrc, hcopy]
    rfl

/-- A per-file install, validation disabled, of a template whose embedded
author is not allowlisted; the copy succeeds. -/
def envBypass : InstallEnv :=
  { envCopyFail with
    source := FileKind.file intruderContent
    copy := CopyOutcome.ok }

/-- Witness for `c7_validation_bypass`: a blocked-author file is still
installed and counted under `files` when validation is disabled. -/
theorem c7_validation_bypass_witness :
    auth_tools.check_template_author (FileKind.file intruderContent)
        envBypass.sourceName none false =
      Except.ok ⟨true,
        "[INFO] Validación de autores deshabilitada; se permite el archivo.",
        [], false⟩ ∧
    ∃ evs, main_installer._install_single_template envBypass none false
        ⟨0, 0, 0⟩ =
      RunResult.ok true ⟨1, 0, 0⟩ evs :=
  c7_validation_bypass intruderContent envBypass none ⟨0, 0, 0⟩ rfl rfl rfl

/-- The deletion loop never adds files: anything left afterwards was
there before. -/
theorem processTargets_subset (ts : List String) (u : String → Bool) :
    ∀ fs p, p ∈ (processTargets ts u fs).1 → p ∈ fs := by
  induction ts with
  | nil =>
      intro fs p hp
      simpa [processTargets] using hp
  | cons t rest ih =>
      intro fs p hp
      by_cases hm : t ∈ fs
      · by_cases hu : u t = true
        · simp only [processTargets, hm, if_true, hu] at hp
          exact ih fs p hp
        · simp only [processTargets, hm, if_true, hu, if_false] at hp
          have hsub := ih (fs.filter fun q => q ≠ t) p hp
          exact (List.mem_filter.mp hsub).1
      · simp only [processTargets, hm, if_false] at hp
        exact ih fs p hp

/-- With no unlink failures, every processed target is gone afterwards. -/
theorem processTargets_removes (ts : List String) :
    ∀ fs, ∀ t ∈ ts, t ∉ (processTargets ts (fun _ => false) fs).1 := by
  induction ts with
  | nil => intro fs t ht; cases ht
  | cons a rest ih =>
      intro fs t ht
      rcases List.mem_cons.mp ht with rfl | htr
      · by_cases hm : t ∈ fs
        · simp only [processTargets, hm, if_true, if_false]
          intro hmem
          have hf := processTargets_subset rest (fun _ => false)
            (fs.filter fun q => q ≠ t) t hmem
          have hne := (List.mem_filter.mp hf).2
          simp at hne
        · simp only [processTargets, hm, if_false]
          intro hmem
          exact hm (processTargets_subset rest (fun _ => false) fs t hmem)
      · by_cases hm : a ∈ fs
        · simp only [processTargets, hm, if_true, if_false]
          exact ih _ t htr
        · simp only [processTargets, hm, if_false]
          exact ih fs t htr

/-- C8: uninstall is idempotent.  First conjunct: the deletion loop is a
strict no-op on targets that are absent — the filesystem is unchanged,
nothing is deleted, and no warning (the only error signal these routines
have; they count nothing and the `try/except OSError` guard means nothing
propagates) is emitted.  Second conjunct: after one full uninstall pass
(`remove_installed_templates` of the base names then
`delete_custom_copies` of the staging files) with no unlink failures,
running the same pass again deletes nothing, warns nothing, and leaves
the filesystem exactly as the first pass left it. -/
theorem c8_uninstall_idempotent :
    (∀ (ts : List String) (u : String → Bool) (fs : List String),
      (∀ t ∈ ts, t ∉ fs) → processTargets ts u fs = (fs, [], 0)) ∧
    (∀ (wd pd ed td : String) (dvs : List String) (entries : List DirEntry)
        (fs : List String),
      run_uninstall wd pd ed td dvs entries (fun _ => false)
          (run_uninstall wd pd ed td dvs entries (fun _ => false) fs).1 =
        ((run_uninstall wd pd ed td dvs entries (fun _ => false) fs).1,
          [], 0)) := by
  have habsent : ∀ (ts : List String) (u : String → Bool)
      (fs : List String), (∀ t ∈ ts, t ∉ fs) →
        processTargets ts u fs = (fs, [], 0) := by
    intro ts
    induction ts with
    | nil => intro u fs _; rfl
    | cons a rest ih =>
        intro u fs h
        have ha : a ∉ fs := h a (by simp)
        have hr : ∀ t ∈ rest, t ∉ fs := fun t ht => h t (by simp [ht])
        simp only [processTargets, ha, if_false]
        exact ih u fs hr
  refine ⟨habsent, ?_⟩
  intro wd pd ed td dvs entries fs
  set T1 := baseTargets wd pd ed td with hT1
  set T2 := customTargets entries dvs with hT2
  have hrun : ∀ gs : List String,
      run_uninstall wd pd ed td dvs entries (fun _ => false) gs =
        (((processTargets T2 (fun _ => false)
            (processTargets T1 (fun _ => false) gs).1).1),
          (processTargets T1 (fun _ => false) gs).2.1 ++
            (processTargets T2 (fun _ => false)
              (processTargets T1 (fun _ => false) gs).1).2.1,
          (processTargets T1 (fun _ => false) gs).2.2 +
            (processTargets T2 (fun _ => false)
              (processTargets T1 (fun _ => false) gs).1).2.2) := by
    intro gs
    rfl
  set fs1 := (processTargets T1 (fun _ => false) fs).1 with hfs1
  set fs2 := (processTargets T2 (fun _ => false) fs1).1 with hfs2
  have h1 : ∀ t ∈ T1, t ∉ fs2 := by
    intro t ht hmem
    exact processTargets_removes T1 fs t ht
      (processTargets_subset T2 (fun _ => false) fs1 t hmem)
  have h2 : ∀ t ∈ T2, t ∉ fs2 := fun t ht =>
    processTargets_removes T2 fs1 t ht
  have e1 : processTargets T1 (fun _ => false) fs2 = (fs2, [], 0) :=
    habsent T1 (fun _ => false) fs2 h1
  have e2 : processTargets T2 (fun _ => false) fs2 = (fs2, [], 0) :=
    habsent T2 (fun _ => false) fs2 h2
  rw [hrun, hrun]
  simp only [← hfs1, ← hfs2, e1, e2]
  simp

/-- Witness for `c8_uninstall_idempotent`: deleting an absent custom copy
is a no-op with nothing counted. -/
theorem c8_uninstall_idempotent_witness :
    processTargets ["D/Custom.dotx"] (fun _ => false) ["D/Other.potx"] =
      (["D/Other.potx"], [], 0) :=
  c8_uninstall_idempotent.1 ["D/Custom.dotx"] (fun _ => false)
    ["D/Other.potx"] (by decide)

/-- C9: custom-template routing is decided solely by the file extension.
`main_installer._destination_for_extension` sends `.xltx`/`.xltm` to the
detected Excel custom path, `.potx`/`.potm` to the PowerPoint path,
`.dotx`/`.dotm` to the Word path and `.thmx` to the document-theme path;
`common._destination_for_extension` maps the same extensions to the
corresponding destination-map entries; and any extension outside the
supported set maps to `none` in both, so the caller skips the file. -/
theorem c9_extension_routing :
    (∀ w p e th : String,
      main_installer._destination_for_extension ".xltx" w p e th = some e ∧
      main_installer._destination_for_extension ".xltm" w p e th = some e ∧
      main_installer._destination_for_extension ".potx" w p e th = some p ∧
      main_installer._destination_for_extension ".potm" w p e th = some p ∧
      main_installer._destination_for_extension ".dotx" w p e th = some w ∧
      main_installer._destination_for_extension ".dotm" w p e th = some w ∧
      main_installer._destination_for_extension ".thmx" w p e th = some th) ∧
    (∀ d : CommonDests,
      common._destination_for_extension ".xltx" d = some d.excel ∧
      common._destination_for_extension ".xltm" d = some d.excel ∧
      common._destination_for_extension ".potx" d = some d.powerpoint ∧
      common._destination_for_extension ".potm" d = some d.powerpoint ∧
      common._destination_for_extension ".dotx" d = some d.word ∧
      common._destination_for_extension ".dotm" d = some d.word ∧
      common._destination_for_extension ".thmx" d = some d.themes) ∧
    (∀ (ext w p e th : String) (d : CommonDests),
      ext ∉ SUPPORTED_EXTENSIONS_SORTED →
        main_installer._destination_for_extension ext w p e th = none ∧
        common._destination_for_extension ext d = none) := by
  refine ⟨fun w p e th => ⟨rfl, rfl, rfl, rfl, rfl, rfl, rfl⟩,
    fun d => ⟨rfl, rfl, rfl, rfl, rfl, rfl, rfl⟩, ?_⟩
  intro ext w p e th d h
  simp only [SUPPORTED_EXTENSIONS_SORTED, List.mem_cons,
    List.not_mem_nil, or_false, not_or] at h
  obtain ⟨h1, h2, h3, h4, h5, h6, h7⟩ := h
  constructor
  · simp [main_installer._destination_for_extension,
      h1, h2, h3, h4, h5, h6, h7]
  · simp [common._destination_for_extension, h1, h2, h3, h4, h5, h6, h7]

/-- Witness for `c9_extension_routing`: an unmapped extension is skipped. -/
theorem c9_extension_routing_witness :
    main_installer._destination_for_extension ".txt" "W" "P" "E" "T" =
      none ∧
    common._destination_for_extension ".txt" ⟨"W", "P", "E", "T"⟩ = none :=
  c9_extension_routing.2.2 ".txt" "W" "P" "E" "T" ⟨"W", "P", "E", "T"⟩
    (by decide)
